import Mathlib

/-!
Verification of the score-extrapolation and display-window engine of the
`mplus-title` repository, shallowly embedded from
`src/app/routes/$season/index.tsx`.

Modelling conventions:
* JS numbers are modelled as exact rationals (`ℚ`); raw timestamps are
  epoch-millisecond integers (`ℤ`).  Scores and derived curve timestamps are
  rationals.
* Nullable season dates (`number | null` in the source, populated from the
  repository's season tables as real, non-epoch-zero instants) are modelled as
  `Option ℤ`; JS truthiness checks on them (`!seasonStart`,
  `seasonEnding && ...`) become `Option` matches, since an actual timestamp is
  never the falsy number `0`.
* The override value produced by `determineExtrapolationEnd` can be `NaN`
  (from `new Date(invalid).getTime()`), so it is modelled by `JSNum`
  (`nan` or an integer value); `NaN` is falsy exactly like an absent value.
* JS object identity (`dataset === data[0]`) is modelled by indexing the
  series with `List.enum` and comparing array positions.
* `Array.from({length: q})` with a fractional or negative `q` truncates
  toward zero and clamps at `0`; `jsLen` models this.
* `toFixed(1)` rounds to the nearest tenth, ties toward `+∞` (ECMA-262 picks
  the larger candidate); `toOneDigit` models this on `ℚ`.
* `calculateZoom` dereferences `undefined` when the series is empty and no
  forecast exists (the loader guards against this); the model returns `none`
  exactly in that situation.
-/

namespace MplusTitle

def oneWeekInMs : ℤ := 7 * 24 * 60 * 60 * 1000

def oneDayInMs : ℤ := 24 * 60 * 60 * 1000

def oneHourInMs : ℤ := 60 * 60 * 1000

/-- `oneWeekInMs` as a rational, for arithmetic on derived (fractional) values. -/
def oneWeekQ : ℚ := 7 * 24 * 60 * 60 * 1000

inductive Faction
  | horde
  | alliance
deriving DecidableEq, Repr

/-- One snapshot of the tracked score (`Dataset` in the source): timestamp in
epoch milliseconds, score, optional faction tag (absent = combined). -/
structure Dataset where
  ts : ℤ
  score : ℚ
  faction : Option Faction := none
deriving DecidableEq, Repr

/-- `crossFactionSupport` of a season.  The middle mode is called `"partial"`
in the source; `partial` is a Lean keyword, hence `partway`. -/
inductive CrossFactionSupport
  | none
  | partway
  | complete
deriving DecidableEq, Repr

/-- The per-region fields of a season that the engine reads
(`startDates[region]`, `endDates[region]`, `crossFactionSupport`). -/
structure SeasonWindow where
  startDate : Option ℤ
  endDate : Option ℤ
  crossFactionSupport : CrossFactionSupport
deriving DecidableEq, Repr

/-- A JS number that may be `NaN` (result of `new Date(s).getTime()`). -/
inductive JSNum
  | nan
  | val (v : ℤ)
deriving DecidableEq, Repr

/-- Result record of `calculateFactionDiffForWeek`. -/
structure FactionDiff where
  hordeDiff : ℚ
  allianceDiff : ℚ
  xFactionDiff : ℚ
deriving DecidableEq, Repr

/-- Result of `calculateExtrapolation` when non-null: either the dense
day-by-day curve (`[number, number][]`) or the two-point
`{from: Dataset, to: {ts, score}}` segment. -/
inductive Extrapolation
  | dense (points : List (ℚ × ℚ))
  | segment (fromDataset : Dataset) (toPoint : ℚ × ℚ)
deriving DecidableEq, Repr

/-- `Number.parseFloat(x.toFixed(1))`: round to one decimal digit,
ties toward the larger candidate. -/
def toOneDigit (q : ℚ) : ℚ :=
  ((⌊q * 10 + 1 / 2⌋ : ℤ) : ℚ) / 10

/-- `Array.from({length: q})` element count: ECMAScript `ToLength`
(truncate toward zero, clamp below at 0). -/
def jsLen (q : ℚ) : ℕ :=
  if q ≤ 0 then 0 else (⌊q⌋).toNat

/-- `determineExtrapolationStart` (source lines 77-93): first observation at or
after `startDate + 4 weeks`, or `null` when the start is unknown / nothing
qualifies. -/
def determineExtrapolationStart (data : List Dataset) (season : SeasonWindow) :
    Option Dataset :=
  match season.startDate with
  | Option.none => Option.none
  | some seasonStart =>
      data.find? fun dataset => decide (seasonStart + 4 * oneWeekInMs ≤ dataset.ts)

/-- `calculateFactionDiffForWeek` (source lines 969-1035).  The series is
indexed with `List.enum` so that the source's reference comparison
`startMatch === data[0]` becomes a comparison of array positions. -/
def calculateFactionDiffForWeek (data : List Dataset)
    (crossFactionSupport : CrossFactionSupport) (isFirstWeek : Bool)
    (fromTs toTs : ℤ) : FactionDiff :=
  let hasCompleteXFactionSupport : Bool :=
    decide (crossFactionSupport = CrossFactionSupport.complete)
  let indexed := data.enum
  let thisWeeksData :=
    indexed.filter fun p => decide (fromTs ≤ p.2.ts ∧ p.2.ts ≤ toTs)
  let horde :=
    if hasCompleteXFactionSupport then []
    else thisWeeksData.filter fun p => decide (p.2.faction = some Faction.horde)
  let alliance :=
    if hasCompleteXFactionSupport then []
    else thisWeeksData.filter fun p => decide (p.2.faction = some Faction.alliance)
  let hordeEndMatch := if hasCompleteXFactionSupport then Option.none else horde.reverse.head?
  let hordeStartMatch := if hasCompleteXFactionSupport then Option.none else horde.head?
  let allianceEndMatch :=
    if hasCompleteXFactionSupport then Option.none else alliance.reverse.head?
  let allianceStartMatch :=
    if hasCompleteXFactionSupport then Option.none else alliance.head?
  let xFactionEndMatch :=
    if hasCompleteXFactionSupport then thisWeeksData.getLast?
    else if crossFactionSupport = CrossFactionSupport.partway then
      thisWeeksData.reverse.find? fun p => decide (p.2.faction = Option.none)
    else Option.none
  let xFactionStartMatch :=
    if hasCompleteXFactionSupport then thisWeeksData.head?
    else if crossFactionSupport = CrossFactionSupport.partway then
      thisWeeksData.find? fun p => decide (p.2.faction = Option.none)
    else Option.none
  let diffOf : Option (ℕ × Dataset) → Option (ℕ × Dataset) → ℚ := fun endM startM =>
    match endM, startM with
    | some e, some s => e.2.score - (if isFirstWeek ∧ s.1 = 0 then 0 else s.2.score)
    | _, _ => 0
  { hordeDiff := diffOf hordeEndMatch hordeStartMatch
    allianceDiff := diffOf allianceEndMatch allianceStartMatch
    xFactionDiff := diffOf xFactionEndMatch xFactionStartMatch }

/-- The weight the source applies to the weekly diff at `index` in a list of
`n` retained diffs: `factor > 0 ? factor : 0.1` with
`factor = 1 - (n - index - 1) / 10` (source lines 175-178). -/
def jsWeightFactor (n : ℕ) (index : ℕ) : ℚ :=
  let factor : ℚ := 1 - ((n : ℚ) - (index : ℚ) - 1) / 10
  if 0 < factor then factor else 1 / 10

/-- The weighted reduction of the retained weekly diffs
(`passedWeeksDiff.reduce(...)`, source lines 173-179).  The source's `reduce`
has no initial accumulator, so the first element seeds the accumulator raw and
the callback only runs from index 1 on.  (`reduce` on `[]` would throw; the
branch is guarded by `length >= 4`.) -/
def weightedSum (diffs : List ℚ) : ℚ :=
  match diffs with
  | [] => 0
  | d0 :: rest =>
      (List.enumFrom 1 rest).foldl
        (fun acc p => acc + p.2 * jsWeightFactor diffs.length p.1) d0

/-- `scoreIncreaseSteps` of the weighted branch (source lines 173-181):
weighted reduction, divided by the number of diffs and then by 7. -/
def scoreIncreaseSteps (diffs : List ℚ) : ℚ :=
  weightedSum diffs / diffs.length / 7

/-- The dense curve shape shared by both strategies (source lines 183-201 and
219-231): the last real observation, `m` interpolated daily points, and the
final point exactly at `toTs`. -/
def denseCurve (lastTs lastScore toTs interval steps : ℚ) (m : ℕ)
    (endScore : ℚ) : List (ℚ × ℚ) :=
  ((lastTs, lastScore) ::
      (List.range m).map fun (i : ℕ) =>
        (lastTs + interval * ((i : ℚ) + 1),
         toOneDigit (lastScore + steps * ((i : ℚ) + 1)))) ++
    [(toTs, endScore)]

/-- The weighted-recent-growth branch (source lines 167-202). -/
def weightedExtrapolation (lastTs : ℤ) (lastScore toTs d : ℚ)
    (diffs : List ℚ) : List (ℚ × ℚ) :=
  let interval := (toTs - (lastTs : ℚ)) / d
  let steps := scoreIncreaseSteps diffs
  denseCurve lastTs lastScore toTs interval steps (jsLen (d - 1))
    (toOneDigit (lastScore + steps * d))

/-- The simple-linear-ratio fallback (source lines 204-240): project the end
score from the growth since the extrapolation-start observation, then emit a
dense curve (more than a day left) or a two-point segment. -/
def linearExtrapolation (lastDataset firstRelevantDataset : Dataset)
    (toTs d : ℚ) : Extrapolation :=
  let timePassed : ℚ := ((lastDataset.ts - firstRelevantDataset.ts : ℤ) : ℚ)
  let daysPassed := timePassed / 1000 / 60 / 60 / 24
  let factor := d / daysPassed
  let score :=
    toOneDigit (lastDataset.score +
      (lastDataset.score - firstRelevantDataset.score) * factor)
  if oneWeekQ / 7 < toTs - (lastDataset.ts : ℚ) then
    .dense (denseCurve lastDataset.ts lastDataset.score toTs
      ((toTs - (lastDataset.ts : ℚ)) / d) ((score - lastDataset.score) / d)
      (jsLen (d - 1)) score)
  else
    .segment lastDataset (toTs, score)

/-- `endOverrideDate.setHours(new Date(seasonStart).getUTCHours())` (source
lines 119-121) on a clock running in UTC: replace the override's hour of day
with the season start's hour, keeping minutes/seconds/milliseconds. -/
def jsSetHoursFromStart (seasonStart endOverride : ℤ) : ℤ :=
  let startHours := (seasonStart.emod oneDayInMs).ediv oneHourInMs
  let overrideHours := (endOverride.emod oneDayInMs).ediv oneHourInMs
  endOverride + (startHours - overrideHours) * oneHourInMs

/-- The working season end after the override rule (source lines 105-122):
a known `endDate` is authoritative; otherwise a truthy override (a real
number, not `NaN`) is adopted, re-timed to the start's hour of day. -/
def resolveSeasonEnding (season : SeasonWindow) (seasonStart : ℤ)
    (endOverride : Option JSNum) : Option ℤ :=
  match season.endDate with
  | some e => some e
  | Option.none =>
      match endOverride with
      | some (JSNum.val v) => some (jsSetHoursFromStart seasonStart v)
      | _ => Option.none

/-- `daysUntilSeasonEnding` (source lines 124-130, 251-254): days from `now`
to the working end, or `null` when the end is unknown or not in the future. -/
def daysUntilSeasonEnding (seasonEnding : Option ℤ) (now : ℤ) : Option ℚ :=
  match seasonEnding with
  | some e =>
      if now < e then some (((e - now : ℤ) : ℚ) / 1000 / 60 / 60 / 24)
      else Option.none
  | Option.none => Option.none

/-- `passedWeeksDiff` (source lines 143-158): per-week combined deltas over
the whole (working) season, zero deltas dropped, then the first 4 entries
dropped. -/
def passedWeeksDiffs (season : SeasonWindow) (seasonStart : ℤ)
    (seasonEnding : Option ℤ) (data : List Dataset) : List ℚ :=
  let weeks : ℕ :=
    match seasonEnding with
    | some e => jsLen (((e - seasonStart : ℤ) : ℚ) / oneWeekQ)
    | Option.none => 36
  ((((List.range weeks).map fun index =>
      (calculateFactionDiffForWeek data season.crossFactionSupport
        (decide (index = 0))
        (seasonStart + (index : ℤ) * oneWeekInMs)
        (seasonStart + (index : ℤ) * oneWeekInMs + oneWeekInMs)).xFactionDiff)
    |>.filter fun q => decide (q ≠ 0))
    |>.drop 4)

/-- `to` of the extrapolation (source lines 160-163): the working end, or
`lastDataset.ts + (daysUntilEnd / 7) weeks` when no end exists. -/
def extrapolationEnd (seasonEnding : Option ℤ) (lastTs : ℤ) (d : ℚ) : ℚ :=
  match seasonEnding with
  | some e => (e : ℚ)
  | Option.none => (lastTs : ℚ) + d / 7 * oneWeekQ

/-- The first early exit of `calculateExtrapolation` (source lines 105-109):
the region's end date exists and has already passed. -/
def endDatePassed (season : SeasonWindow) (now : ℤ) : Bool :=
  match season.endDate with
  | some e => decide (e ≤ now)
  | Option.none => false

/-- `calculateExtrapolation` (source lines 99-241), with `Date.now()` threaded
as the explicit parameter `now`. -/
def calculateExtrapolation (season : SeasonWindow) (data : List Dataset)
    (endOverride : Option JSNum) (now : ℤ) : Option Extrapolation :=
  if endDatePassed season now then Option.none else
  match season.startDate with
  | Option.none => Option.none
  | some seasonStart =>
      let seasonEnding := resolveSeasonEnding season seasonStart endOverride
      let dU := daysUntilSeasonEnding seasonEnding now
      match determineExtrapolationStart data season, data.getLast? with
      | Option.none, _ => Option.none
      | some _, Option.none => Option.none
      | some firstRelevantDataset, some lastDataset =>
          let passedWeeksDiff := passedWeeksDiffs season seasonStart seasonEnding data
          let d := dU.getD 21
          let toTs := extrapolationEnd seasonEnding lastDataset.ts d
          if 4 ≤ passedWeeksDiff.length ∧ oneWeekQ / 7 < toTs - (lastDataset.ts : ℚ) then
            some (.dense (weightedExtrapolation lastDataset.ts lastDataset.score
              toTs d passedWeeksDiff))
          else
            some (linearExtrapolation lastDataset firstRelevantDataset toTs d)

/-- The working end instant a produced forecast projects to, as a standalone
definition (the `to` computed inside `calculateExtrapolation`). -/
def resolvedWorkingEnd (season : SeasonWindow) (data : List Dataset)
    (endOverride : Option JSNum) (now : ℤ) : ℚ :=
  match season.startDate, data.getLast? with
  | some seasonStart, some lastDataset =>
      let seasonEnding := resolveSeasonEnding season seasonStart endOverride
      extrapolationEnd seasonEnding lastDataset.ts
        ((daysUntilSeasonEnding seasonEnding now).getD 21)
  | _, _ => 0

/-- The `daysUntilSeasonEndingOrFourWeeks` value used by a produced forecast,
as a standalone definition. -/
def workingDaysUntil (season : SeasonWindow) (endOverride : Option JSNum)
    (now : ℤ) : ℚ :=
  match season.startDate with
  | some seasonStart =>
      (daysUntilSeasonEnding (resolveSeasonEnding season seasonStart endOverride) now).getD 21
  | Option.none => 21

/-- The backward scan of `calculateZoom` (source lines 264-268 etc.): the
timestamp of the last observation strictly before `zoomEnd - offset`, or 0. -/
def backThen (data : List Dataset) (zoomEnd offset : ℚ) : ℚ :=
  match data.reverse.find? fun dataset => decide ((dataset.ts : ℚ) < zoomEnd - offset) with
  | some dataset => (dataset.ts : ℚ)
  | Option.none => 0

/-- The `zoomEnd` choice of `calculateZoom` (source lines 256-259): the
forecast's last timestamp when a forecast exists, else the last observation's
timestamp; `none` when the source expression would dereference `undefined`. -/
def zoomEndOf (data : List Dataset) (extrapolation : Option Extrapolation) :
    Option ℚ :=
  match extrapolation with
  | some (.dense points) => points.getLast?.map Prod.fst
  | some (.segment _ p) => some p.1
  | Option.none => data.getLast?.map fun dataset => (dataset.ts : ℚ)

/-- `calculateZoom` (source lines 243-290).  Returns `none` exactly when the
source would dereference `undefined` (empty series with no forecast, or an
empty dense forecast) — the loader never calls it that way. -/
def calculateZoom (season : SeasonWindow) (data : List Dataset)
    (extrapolation : Option Extrapolation) (now : ℤ) : Option (ℚ × ℚ) :=
  let dU := daysUntilSeasonEnding season.endDate now
  match zoomEndOf data extrapolation with
  | Option.none => Option.none
  | some zoomEnd =>
      match dU with
      | some days =>
          if days < 1 then
            some (backThen data zoomEnd ((1 + 1 / 7) * oneWeekQ), zoomEnd)
          else if days < 7 then
            some (backThen data zoomEnd
              ((if extrapolation.isSome then (3 : ℚ) else 2) * oneWeekQ), zoomEnd)
          else
            some (backThen data zoomEnd
              ((if extrapolation.isSome then (6 : ℚ) else 4) * oneWeekQ), zoomEnd)
      | Option.none =>
          some (backThen data zoomEnd
            ((if extrapolation.isSome then (6 : ℚ) else 4) * oneWeekQ), zoomEnd)

/-- The zoom entry point as the spec names it: the loader (source lines
372-374) leaves the zoom `null` for an empty series and otherwise stores
`calculateZoom`'s result. -/
def computeZoomWindow (season : SeasonWindow) (data : List Dataset)
    (extrapolation : Option Extrapolation) (now : ℤ) : Option (ℚ × ℚ) :=
  if data.isEmpty then Option.none else calculateZoom season data extrapolation now

/-- `determineExtrapolationEnd` (source lines 292-312) after URL/date parsing:
an absent or empty parameter is `null`; an unparseable date is `NaN`, and
`NaN < Date.now()` is false, so `NaN` is returned as-is; a parsed date is
dropped only when strictly earlier than `now`. -/
def determineExtrapolationEnd (maybeDate : Option JSNum) (now : ℤ) : Option JSNum :=
  match maybeDate with
  | Option.none => Option.none
  | some JSNum.nan => some JSNum.nan
  | some (JSNum.val d) => if d < now then Option.none else some (JSNum.val d)

/-! General list lemmas used to relate the source's backward scans
(`[...xs].reverse().find(p)`, `xs.reverse()[0]`) to filters. -/

theorem find?_eq_head?_filter {α : Type} (p : α → Bool) :
    ∀ l : List α, l.find? p = (l.filter p).head?
  | [] => rfl
  | a :: t => by
      cases hp : p a with
      | true => rw [List.find?_cons_of_pos _ hp, List.filter_cons, if_pos hp]; rfl
      | false =>
          rw [List.find?_cons_of_neg _ (by simp [hp]), List.filter_cons, if_neg (by simp [hp])]
          exact find?_eq_head?_filter p t

theorem find?_reverse_eq_getLast?_filter {α : Type} (p : α → Bool) (l : List α) :
    l.reverse.find? p = (l.filter p).getLast? := by
  rw [find?_eq_head?_filter, List.filter_reverse, List.head?_reverse]

theorem foldl_add_map {α : Type} (g : α → ℚ) :
    ∀ (l : List α) (a : ℚ), l.foldl (fun acc x => acc + g x) a = a + (l.map g).sum
  | [], a => by simp
  | x :: t, a => by
      rw [List.foldl_cons, foldl_add_map g t (a + g x), List.map_cons, List.sum_cons]
      ring

/-- The source's conditional weight `factor > 0 ? factor : 0.1` coincides with
`max(factor, 0.1)` because the factor `1 - (n - i - 1)/10` is always an
integer multiple of `1/10`, so it is never strictly between `0` and `0.1`. -/
theorem jsWeightFactor_eq_max (n i : ℕ) :
    jsWeightFactor n i = max (1 - ((n : ℚ) - (i : ℚ) - 1) / 10) (1 / 10) := by
  unfold jsWeightFactor
  have hx : ((((n : ℤ) - (i : ℤ) - 1) : ℤ) : ℚ) = (n : ℚ) - (i : ℚ) - 1 := by
    push_cast; ring
  rcases le_or_lt ((n : ℤ) - (i : ℤ) - 1) 9 with h | h
  · have h9 : (n : ℚ) - (i : ℚ) - 1 ≤ 9 := by
      rw [← hx]; exact_mod_cast h
    have h' : (1 : ℚ) / 10 ≤ 1 - ((n : ℚ) - (i : ℚ) - 1) / 10 := by linarith
    rw [if_pos (by linarith), max_eq_left h']
  · have h10 : (10 : ℚ) ≤ (n : ℚ) - (i : ℚ) - 1 := by
      rw [← hx]; exact_mod_cast h
    have h' : 1 - ((n : ℚ) - (i : ℚ) - 1) / 10 ≤ 0 := by linarith
    rw [if_neg (by linarith), max_eq_right (by linarith)]

theorem jsLen_lt_of_pos {d : ℚ} (hd : 0 < d) : ((jsLen (d - 1) : ℕ) : ℚ) < d := by
  unfold jsLen
  split
  · simpa using hd
  · rename_i h
    push_neg at h
    have h0 : (0 : ℤ) ≤ ⌊d - 1⌋ := Int.floor_nonneg.2 (by linarith)
    have hcast : ((⌊d - 1⌋.toNat : ℕ) : ℚ) = ((⌊d - 1⌋ : ℤ) : ℚ) := by
      exact_mod_cast congrArg (fun z : ℤ => (z : ℚ)) (Int.toNat_of_nonneg h0)
    rw [hcast]
    have := Int.floor_le (d - 1)
    linarith

/-- The source divides milliseconds by `1000/60/60/24` in sequence; that is
division by one day in milliseconds. -/
theorem div_day_chain (x : ℚ) : x / 1000 / 60 / 60 / 24 = x / 86400000 := by
  rw [div_div, div_div, div_div]
  norm_num

theorem workingDaysUntil_pos (seasonEnding : Option ℤ) (now : ℤ) :
    0 < (daysUntilSeasonEnding seasonEnding now).getD 21 := by
  rcases seasonEnding with _ | e
  · norm_num [daysUntilSeasonEnding]
  · simp only [daysUntilSeasonEnding]
    by_cases h : now < e
    · rw [if_pos h]
      have hp : (0 : ℚ) < ((e - now : ℤ) : ℚ) := by exact_mod_cast Int.sub_pos.2 h
      simp only [Option.getD_some]
      positivity
    · rw [if_neg h]; norm_num

/-! Claim C1: the weighting of the retained weekly deltas. -/

/-- The daily increment as claim C1 states it: every retained delta `d_i`,
including the oldest one `d_0`, multiplied by `max(1 - (n - i - 1)/10, 0.1)`,
summed, divided by `n`, divided by 7. -/
def claimC1Increment (diffs : List ℚ) : ℚ :=
  ((diffs.enum.map fun p =>
      p.2 * max (1 - ((diffs.length : ℚ) - (p.1 : ℚ) - 1) / 10) (1 / 10)).sum)
    / diffs.length / 7

/-- The daily increment the code actually computes: the oldest retained delta
seeds the `reduce` accumulator unweighted, the remaining deltas are weighted. -/
def seededWeightedIncrement (diffs : List ℚ) : ℚ :=
  match diffs with
  | [] => 0
  | d0 :: rest =>
      (d0 + ((List.enumFrom 1 rest).map fun p =>
          p.2 * max (1 - ((diffs.length : ℚ) - (p.1 : ℚ) - 1) / 10) (1 / 10)).sum)
        / diffs.length / 7

/-- Claim C1 counterexample: on the retained-delta list `[10, 10, 10, 10]`
(realisable, e.g. four equal post-warm-up weekly gains) the code's daily
increment is `37/28` — the seed `10` enters unweighted — while the claim's
all-weighted formula gives `(10*0.7 + 10*0.8 + 10*0.9 + 10*1)/4/7 = 17/14`. -/
theorem claimC1_counterexample :
    scoreIncreaseSteps [10, 10, 10, 10] = 37 / 28 ∧
    claimC1Increment [10, 10, 10, 10] = 17 / 14 ∧
    scoreIncreaseSteps [10, 10, 10, 10] ≠ claimC1Increment [10, 10, 10, 10] := by
  refine ⟨?_, ?_, ?_⟩ <;>
    norm_num [scoreIncreaseSteps, weightedSum, jsWeightFactor, claimC1Increment,
      List.enumFrom, List.enum]

/-- Claim C1 (amended): in the weighted-recent-growth strategy the daily
increment equals `(d_0 + sum over i ≥ 1 of d_i * max(1 - (n - i - 1)/10, 0.1))
/ n / 7`: the oldest retained delta seeds the accumulator-less `reduce` and so
contributes unweighted, and every later delta contributes multiplied by its
computed weight. -/
theorem scoreIncreaseSteps_eq_seeded (diffs : List ℚ) :
    scoreIncreaseSteps diffs = seededWeightedIncrement diffs := by
  cases diffs with
  | nil => simp [scoreIncreaseSteps, weightedSum, seededWeightedIncrement]
  | cons d0 rest =>
      simp only [scoreIncreaseSteps, weightedSum, seededWeightedIncrement]
      rw [foldl_add_map]
      simp only [jsWeightFactor_eq_max]

/-! Claim C6: the weekly delta calculator. -/

/-- The per-bucket delta rule as claim C6 states it: `(last of bucket).score -
(first of bucket).score`, except that when `isFirstWeek` holds and the bucket's
first element is literally the series' very first observation (array position
0) the subtracted baseline is 0; an empty bucket yields 0. -/
def claimBucketDelta (isFirstWeek : Bool) (bucket : List (ℕ × Dataset)) : ℚ :=
  match bucket.getLast?, bucket.head? with
  | some e, some s => e.2.score - (if isFirstWeek ∧ s.1 = 0 then 0 else s.2.score)
  | _, _ => 0

/-- The weekly delta as claim C6 states it: restrict to the observations with
`from ≤ ts ≤ to`, select buckets by mode (`complete`: all matching
observations for the combined bucket; `partial`: the untagged matching
observations for the combined bucket, faction-tagged ones for the faction
buckets; `none`: one bucket per faction tag, combined 0), and apply
`claimBucketDelta` to each; unused buckets are 0. -/
def claimWeeklyDelta (data : List Dataset)
    (crossFactionSupport : CrossFactionSupport) (isFirstWeek : Bool)
    (fromTs toTs : ℤ) : FactionDiff :=
  let matching := data.enum.filter fun p => decide (fromTs ≤ p.2.ts ∧ p.2.ts ≤ toTs)
  let hordeBucket := matching.filter fun p => decide (p.2.faction = some Faction.horde)
  let allianceBucket := matching.filter fun p => decide (p.2.faction = some Faction.alliance)
  let untaggedBucket := matching.filter fun p => decide (p.2.faction = Option.none)
  match crossFactionSupport with
  | CrossFactionSupport.complete =>
      { hordeDiff := 0
        allianceDiff := 0
        xFactionDiff := claimBucketDelta isFirstWeek matching }
  | CrossFactionSupport.partway =>
      { hordeDiff := claimBucketDelta isFirstWeek hordeBucket
        allianceDiff := claimBucketDelta isFirstWeek allianceBucket
        xFactionDiff := claimBucketDelta isFirstWeek untaggedBucket }
  | CrossFactionSupport.none =>
      { hordeDiff := claimBucketDelta isFirstWeek hordeBucket
        allianceDiff := claimBucketDelta isFirstWeek allianceBucket
        xFactionDiff := 0 }

/-- Claim C6: for every observation series, cross-faction mode, first-week
flag and week window, `calculateFactionDiffForWeek` computes exactly the
bucket deltas described by the claim (window `from ≤ ts ≤ to`, buckets by
mode, `end.score - start.score` with the first-week baseline-0 exception tied
to the series' very first observation, 0 for empty buckets). -/
theorem calculateFactionDiffForWeek_eq_claim (data : List Dataset)
    (crossFactionSupport : CrossFactionSupport) (isFirstWeek : Bool)
    (fromTs toTs : ℤ) :
    calculateFactionDiffForWeek data crossFactionSupport isFirstWeek fromTs toTs =
      claimWeeklyDelta data crossFactionSupport isFirstWeek fromTs toTs := by
  cases crossFactionSupport
  case complete => rfl
  case none =>
    simp only [calculateFactionDiffForWeek, claimWeeklyDelta, List.head?_reverse]
    rfl
  case partway =>
    simp only [calculateFactionDiffForWeek, claimWeeklyDelta, find?_eq_head?_filter,
      List.filter_reverse, List.head?_reverse]
    rfl

/-! Claim C8: empty series. -/

/-- Claim C8: for an empty observation series, `calculateExtrapolation`
returns `none` (for every season, override and clock) and `computeZoomWindow`
returns `none`; in this total model neither can fail. -/
theorem emptySeries_no_forecast_no_zoom (season : SeasonWindow)
    (endOverride : Option JSNum) (extrapolation : Option Extrapolation) (now : ℤ) :
    calculateExtrapolation season [] endOverride now = Option.none ∧
    computeZoomWindow season [] extrapolation now = Option.none := by
  constructor
  · unfold calculateExtrapolation
    split
    · rfl
    · cases hS : season.startDate <;>
        simp [determineExtrapolationStart, hS]
  · rfl

/-! Claim C5: early exits and the extrapolation anchor. -/

/-- On a sorted list, `find?` returns an element whose `ts` is minimal among
all elements satisfying the predicate. -/
theorem find?_sorted_ts_min {p : Dataset → Bool} :
    ∀ l : List Dataset, l.Pairwise (fun a b => a.ts ≤ b.ts) →
      ∀ a, l.find? p = some a →
        a ∈ l ∧ p a = true ∧ ∀ b ∈ l, p b = true → a.ts ≤ b.ts := by
  intro l
  induction l with
  | nil => intro _ a ha; cases ha
  | cons x t ih =>
      intro hl a ha
      rw [List.pairwise_cons] at hl
      cases hp : p x with
      | true =>
          rw [List.find?_cons_of_pos _ hp] at ha
          cases ha
          refine ⟨List.mem_cons_self _ _, hp, ?_⟩
          intro b hb _
          rcases List.mem_cons.1 hb with rfl | hb
          · exact le_refl _
          · exact hl.1 b hb
      | false =>
          rw [List.find?_cons_of_neg _ (by simp [hp])] at ha
          obtain ⟨hmem, hpa, hmin⟩ := ih hl.2 a ha
          refine ⟨List.mem_cons_of_mem _ hmem, hpa, ?_⟩
          intro b hb hpb
          rcases List.mem_cons.1 hb with rfl | hb
          · rw [hp] at hpb; cases hpb
          · exact hmin b hb hpb

/-- Claim C5: `calculateExtrapolation` returns `none` whenever the region's
end date is set and has already passed, or its start date is unknown, or no
observation lies at or after `startDate + 4 weeks`; and when the anchor
selector succeeds on a sorted series, the anchor is an observation at or
after `startDate + 4 weeks` that is earliest among all such observations. -/
theorem calculateExtrapolation_guards_and_anchor (season : SeasonWindow)
    (data : List Dataset) (endOverride : Option JSNum) (now : ℤ) :
    (∀ e, season.endDate = some e → e ≤ now →
      calculateExtrapolation season data endOverride now = Option.none) ∧
    (season.startDate = Option.none →
      calculateExtrapolation season data endOverride now = Option.none) ∧
    (∀ s, season.startDate = some s →
      (∀ dd ∈ data, dd.ts < s + 4 * oneWeekInMs) →
      calculateExtrapolation season data endOverride now = Option.none) ∧
    (∀ s a, data.Pairwise (fun x y => x.ts ≤ y.ts) →
      season.startDate = some s →
      determineExtrapolationStart data season = some a →
      a ∈ data ∧ s + 4 * oneWeekInMs ≤ a.ts ∧
        ∀ dd ∈ data, s + 4 * oneWeekInMs ≤ dd.ts → a.ts ≤ dd.ts) := by
  refine ⟨?_, ?_, ?_, ?_⟩
  · intro e he hle
    unfold calculateExtrapolation
    rw [if_pos]
    unfold endDatePassed
    rw [he]
    simpa using hle
  · intro hS
    unfold calculateExtrapolation
    split
    · rfl
    · rw [hS]
  · intro s hS hnone
    have hfind : data.find?
        (fun dataset => decide (s + 4 * oneWeekInMs ≤ dataset.ts)) = Option.none := by
      rw [List.find?_eq_none]
      intro x hx
      simp only [decide_eq_true_eq]
      exact not_le.2 (hnone x hx)
    unfold calculateExtrapolation
    split
    · rfl
    · rw [hS]
      simp only [determineExtrapolationStart, hS, hfind]
  · intro s a hsorted hS hfound
    unfold determineExtrapolationStart at hfound
    rw [hS] at hfound
    obtain ⟨hmem, hpa, hmin⟩ := find?_sorted_ts_min data hsorted a hfound
    refine ⟨hmem, by simpa using hpa, ?_⟩
    intro dd hdd hts
    exact hmin dd hdd (by simpa using hts)

/-- Claim C5 witness: a concrete already-passed end date yields `none`. -/
theorem calculateExtrapolation_guards_witness :
    calculateExtrapolation ⟨some 0, some 50, CrossFactionSupport.complete⟩
      [⟨10, 5, Option.none⟩] Option.none 100 = Option.none :=
  (calculateExtrapolation_guards_and_anchor
      ⟨some 0, some 50, CrossFactionSupport.complete⟩
      [⟨10, 5, Option.none⟩] Option.none 100).1 50 rfl (by norm_num)

/-! Dense-curve geometry: both strategies emit
`(lastTs, lastScore) :: intermediate points :: [(toTs, endScore)]` with
interval `(toTs - lastTs) / d` and `jsLen (d - 1)` intermediate points. -/

theorem fst_getLast?_affine (b y ivl : ℚ) (sc : ℕ → ℚ) (m : ℕ) :
    (((b, y) :: (List.range m).map fun (i : ℕ) =>
        (b + ivl * ((i : ℚ) + 1), sc i)).getLast?).map Prod.fst =
      some (b + ivl * (m : ℚ)) := by
  cases m with
  | zero => simp
  | succ m =>
      rw [List.range_succ, List.map_append]
      simp only [List.map_cons, List.map_nil]
      rw [← List.cons_append, List.getLast?_concat]
      simp only [Option.map_some', Option.some.injEq]
      push_cast
      ring

theorem chain'_fst_affine (b y ivl : ℚ) (sc : ℕ → ℚ) {m : ℕ} (hivl : 0 < ivl) :
    List.Chain' (fun p q : ℚ × ℚ => p.1 < q.1)
      ((b, y) :: (List.range m).map fun (i : ℕ) =>
        (b + ivl * ((i : ℚ) + 1), sc i)) := by
  induction m with
  | zero => simp
  | succ m ih =>
      rw [List.range_succ, List.map_append]
      simp only [List.map_cons, List.map_nil]
      rw [← List.cons_append]
      refine List.chain'_append.2 ⟨ih, List.chain'_singleton _, ?_⟩
      intro p hp q hq
      simp only [List.head?_cons, Option.mem_def, Option.some.injEq] at hq
      have hplast : (some p).map Prod.fst = some (b + ivl * (m : ℚ)) := by
        rw [← Option.mem_def.1 hp]
        exact fst_getLast?_affine b y ivl sc m
      simp only [Option.map_some', Option.some.injEq] at hplast
      have hq1 : q.1 = b + ivl * ((m : ℚ) + 1) := by rw [← hq]
      rw [hplast, hq1]
      have := mul_lt_mul_of_pos_left (lt_add_one (m : ℚ)) hivl
      linarith

theorem denseCurve_head_chain_last (lastTs lastScore toTs d steps endScore : ℚ)
    (hd : 0 < d) (hT : 0 < toTs - lastTs) :
    (denseCurve lastTs lastScore toTs ((toTs - lastTs) / d) steps
        (jsLen (d - 1)) endScore).head? = some (lastTs, lastScore) ∧
    List.Chain' (fun p q : ℚ × ℚ => p.1 < q.1)
      (denseCurve lastTs lastScore toTs ((toTs - lastTs) / d) steps
        (jsLen (d - 1)) endScore) ∧
    ((denseCurve lastTs lastScore toTs ((toTs - lastTs) / d) steps
        (jsLen (d - 1)) endScore).getLast?).map Prod.fst = some toTs := by
  have hivl : 0 < (toTs - lastTs) / d := div_pos hT hd
  have hm : ((jsLen (d - 1) : ℕ) : ℚ) < d := jsLen_lt_of_pos hd
  refine ⟨rfl, ?_, ?_⟩
  · unfold denseCurve
    refine List.chain'_append.2
      ⟨chain'_fst_affine _ _ _ _ hivl, List.chain'_singleton _, ?_⟩
    intro p hp q hq
    simp only [List.head?_cons, Option.mem_def, Option.some.injEq] at hq
    have hplast : (some p).map Prod.fst =
        some (lastTs + (toTs - lastTs) / d * ((jsLen (d - 1) : ℕ) : ℚ)) := by
      rw [← Option.mem_def.1 hp]
      exact fst_getLast?_affine _ _ _ _ _
    simp only [Option.map_some', Option.some.injEq] at hplast
    have hq1 : q.1 = toTs := by rw [← hq]
    have hlt : (toTs - lastTs) / d * ((jsLen (d - 1) : ℕ) : ℚ) < toTs - lastTs := by
      have h1 : ((jsLen (d - 1) : ℕ) : ℚ) / d < 1 := (div_lt_one hd).2 hm
      have h2 : (toTs - lastTs) * (((jsLen (d - 1) : ℕ) : ℚ) / d) < toTs - lastTs :=
        mul_lt_of_lt_one_right hT h1
      calc (toTs - lastTs) / d * ((jsLen (d - 1) : ℕ) : ℚ)
          = (toTs - lastTs) * (((jsLen (d - 1) : ℕ) : ℚ) / d) := by ring
        _ < toTs - lastTs := h2
    rw [hplast, hq1]
    linarith
  · unfold denseCurve
    rw [List.getLast?_concat]
    rfl

/-! Claim C3: shape invariants of every produced dense curve. -/

/-- Claim C3: whenever `calculateExtrapolation` returns a dense curve (under
either strategy), its first point is `(lastObservation.ts,
lastObservation.score)`, its timestamps are strictly increasing, and its last
point's timestamp is the resolved working end instant. -/
theorem denseCurve_first_monotone_last (season : SeasonWindow)
    (data : List Dataset) (endOverride : Option JSNum) (now : ℤ)
    (pts : List (ℚ × ℚ)) (lastDataset : Dataset)
    (hLast : data.getLast? = some lastDataset)
    (hDense : calculateExtrapolation season data endOverride now =
      some (Extrapolation.dense pts)) :
    pts.head? = some ((lastDataset.ts : ℚ), lastDataset.score) ∧
    List.Chain' (fun p q : ℚ × ℚ => p.1 < q.1) pts ∧
    pts.getLast?.map Prod.fst = some (resolvedWorkingEnd season data endOverride now) := by
  unfold calculateExtrapolation at hDense
  split at hDense
  · exact Option.noConfusion hDense
  cases hS : season.startDate with
  | none => rw [hS] at hDense; exact Option.noConfusion hDense
  | some seasonStart =>
      rw [hS] at hDense
      cases hA : determineExtrapolationStart data season with
      | none =>
          simp only [hA] at hDense
          exact Option.noConfusion hDense
      | some anchor =>
          simp only [hA, hLast] at hDense
          have hRWE : resolvedWorkingEnd season data endOverride now =
              extrapolationEnd (resolveSeasonEnding season seasonStart endOverride)
                lastDataset.ts
                ((daysUntilSeasonEnding
                    (resolveSeasonEnding season seasonStart endOverride) now).getD 21) := by
            unfold resolvedWorkingEnd
            rw [hS, hLast]
          have hd : 0 < (daysUntilSeasonEnding
              (resolveSeasonEnding season seasonStart endOverride) now).getD 21 :=
            workingDaysUntil_pos _ _
          split at hDense
          · rename_i hCond
            have hT : 0 < extrapolationEnd
                (resolveSeasonEnding season seasonStart endOverride) lastDataset.ts
                ((daysUntilSeasonEnding
                    (resolveSeasonEnding season seasonStart endOverride) now).getD 21) -
                (lastDataset.ts : ℚ) := by
              have := hCond.2
              have hw : (0 : ℚ) < oneWeekQ / 7 := by norm_num [oneWeekQ]
              linarith
            simp only [Option.some.injEq, Extrapolation.dense.injEq] at hDense
            subst hDense
            have := denseCurve_head_chain_last (lastDataset.ts : ℚ) lastDataset.score
              (extrapolationEnd (resolveSeasonEnding season seasonStart endOverride)
                lastDataset.ts
                ((daysUntilSeasonEnding
                    (resolveSeasonEnding season seasonStart endOverride) now).getD 21))
              ((daysUntilSeasonEnding
                  (resolveSeasonEnding season seasonStart endOverride) now).getD 21)
              (scoreIncreaseSteps (passedWeeksDiffs season seasonStart
                (resolveSeasonEnding season seasonStart endOverride) data))
              (toOneDigit (lastDataset.score +
                scoreIncreaseSteps (passedWeeksDiffs season seasonStart
                  (resolveSeasonEnding season seasonStart endOverride) data) *
                  ((daysUntilSeasonEnding
                      (resolveSeasonEnding season seasonStart endOverride) now).getD 21)))
              hd hT
            rw [hRWE]
            exact this
          · rename_i hCond
            unfold linearExtrapolation at hDense
            split at hDense
            · rename_i hT'
              have hT : 0 < extrapolationEnd
                  (resolveSeasonEnding season seasonStart endOverride) lastDataset.ts
                  ((daysUntilSeasonEnding
                      (resolveSeasonEnding season seasonStart endOverride) now).getD 21) -
                  (lastDataset.ts : ℚ) := by
                have hw : (0 : ℚ) < oneWeekQ / 7 := by norm_num [oneWeekQ]
                linarith
              simp only [Option.some.injEq, Extrapolation.dense.injEq] at hDense
              subst hDense
              rw [hRWE]
              exact denseCurve_head_chain_last _ _ _ _ _ _ hd hT
            · simp only [Option.some.injEq] at hDense
              exact Extrapolation.noConfusion hDense

/-- Claim C3 witness: a season `[0, day 37]` with observations at day 28
(score 10) and day 35 (score 20), evaluated at day 35, produces the dense
curve `[(day 35, 20), (day 36, 21.5), (day 37, 22.9)]`, which starts at the
last observation, has strictly increasing timestamps, and ends at the
resolved working end (day 37). -/
theorem denseCurve_first_monotone_last_witness :
    ([((3024000000 : ℚ), (20 : ℚ)), (3110400000, 43 / 2),
        (3196800000, 229 / 10)].head? =
      some (((3024000000 : ℤ) : ℚ), (20 : ℚ))) ∧
    List.Chain' (fun p q : ℚ × ℚ => p.1 < q.1)
      [((3024000000 : ℚ), (20 : ℚ)), (3110400000, 43 / 2), (3196800000, 229 / 10)] ∧
    ([((3024000000 : ℚ), (20 : ℚ)), (3110400000, 43 / 2),
        (3196800000, 229 / 10)].getLast?).map Prod.fst =
      some (resolvedWorkingEnd ⟨some 0, some 3196800000, CrossFactionSupport.complete⟩
        [⟨2419200000, 10, Option.none⟩, ⟨3024000000, 20, Option.none⟩]
        Option.none 3024000000) := by
  have h := denseCurve_first_monotone_last
    ⟨some 0, some 3196800000, CrossFactionSupport.complete⟩
    [⟨2419200000, 10, Option.none⟩, ⟨3024000000, 20, Option.none⟩]
    Option.none 3024000000
    [((3024000000 : ℚ), (20 : ℚ)), (3110400000, 43 / 2), (3196800000, 229 / 10)]
    ⟨3024000000, 20, Option.none⟩ rfl
    (by norm_num [calculateExtrapolation, determineExtrapolationStart, endDatePassed,
      resolveSeasonEnding, daysUntilSeasonEnding, passedWeeksDiffs,
      calculateFactionDiffForWeek, extrapolationEnd, linearExtrapolation,
      weightedExtrapolation, denseCurve, toOneDigit, jsLen, oneWeekInMs, oneWeekQ,
      oneDayInMs, List.range_succ, List.find?, List.enum, List.enumFrom,
      Int.floor_eq_iff, List.filter])
  exact h

/-! Claim C4: the simple-linear-ratio fallback — its projected end score in
both forms (dense curve and segment), and the segment form when at most one
day remains. -/

/-- The projected end score of the simple-linear-ratio fallback as claim C4
states it: `lastScore + (lastScore - anchorScore) * (daysUntilEnd /
daysPassed)` rounded to one decimal, with `daysPassed =
(lastObservation.ts - anchor.ts)` in days (milliseconds over 86400000). -/
def claimEndScore (lastDataset anchor : Dataset) (daysUntilEnd : ℚ) : ℚ :=
  toOneDigit (lastDataset.score + (lastDataset.score - anchor.score) *
    (daysUntilEnd / (((lastDataset.ts - anchor.ts : ℤ) : ℚ) / 86400000)))

/-- Every dense curve's final point is exactly `(toTs, endScore)`. -/
theorem denseCurve_getLast? (lastTs lastScore toTs interval steps : ℚ) (m : ℕ)
    (endScore : ℚ) :
    (denseCurve lastTs lastScore toTs interval steps m endScore).getLast? =
      some (toTs, endScore) := by
  simp only [denseCurve]
  rw [List.getLast?_concat]

/-- Claim C4: in the simple-linear-ratio fallback the projected end score is
`claimEndScore` (the claim's formula, anchored at the extrapolation-start
observation).  Both triggering cases are covered: (1) whenever at most one
day (one-seventh of a week) remains until the working end — under either
strategy guard — the result is the two-point segment from the last
observation to `(workingEnd, endScore)`, never a dense curve; (2) when fewer
than 4 retained weekly deltas remain and more than one day remains, the
result is the fallback's dense curve with constant increment
`(endScore - lastScore) / daysUntilEnd`, whose final point is
`(workingEnd, endScore)`. -/
theorem linearFallback_end_score (season : SeasonWindow) (data : List Dataset)
    (endOverride : Option JSNum) (now : ℤ) (s : ℤ) (lastDataset anchor : Dataset)
    (hS : season.startDate = some s)
    (hNotPassed : endDatePassed season now = false)
    (hLast : data.getLast? = some lastDataset)
    (hAnchor : determineExtrapolationStart data season = some anchor) :
    (resolvedWorkingEnd season data endOverride now - (lastDataset.ts : ℚ) ≤
        oneWeekQ / 7 →
      calculateExtrapolation season data endOverride now =
        some (Extrapolation.segment lastDataset
          (resolvedWorkingEnd season data endOverride now,
           claimEndScore lastDataset anchor (workingDaysUntil season endOverride now)))) ∧
    ((passedWeeksDiffs season s (resolveSeasonEnding season s endOverride) data).length < 4 →
      oneWeekQ / 7 < resolvedWorkingEnd season data endOverride now - (lastDataset.ts : ℚ) →
      calculateExtrapolation season data endOverride now =
        some (Extrapolation.dense (denseCurve (lastDataset.ts : ℚ) lastDataset.score
          (resolvedWorkingEnd season data endOverride now)
          ((resolvedWorkingEnd season data endOverride now - (lastDataset.ts : ℚ)) /
            workingDaysUntil season endOverride now)
          ((claimEndScore lastDataset anchor (workingDaysUntil season endOverride now) -
              lastDataset.score) / workingDaysUntil season endOverride now)
          (jsLen (workingDaysUntil season endOverride now - 1))
          (claimEndScore lastDataset anchor (workingDaysUntil season endOverride now)))) ∧
      (denseCurve (lastDataset.ts : ℚ) lastDataset.score
          (resolvedWorkingEnd season data endOverride now)
          ((resolvedWorkingEnd season data endOverride now - (lastDataset.ts : ℚ)) /
            workingDaysUntil season endOverride now)
          ((claimEndScore lastDataset anchor (workingDaysUntil season endOverride now) -
              lastDataset.score) / workingDaysUntil season endOverride now)
          (jsLen (workingDaysUntil season endOverride now - 1))
          (claimEndScore lastDataset anchor
            (workingDaysUntil season endOverride now))).getLast? =
        some (resolvedWorkingEnd season data endOverride now,
          claimEndScore lastDataset anchor (workingDaysUntil season endOverride now))) := by
  have hRWE : resolvedWorkingEnd season data endOverride now =
      extrapolationEnd (resolveSeasonEnding season s endOverride) lastDataset.ts
        ((daysUntilSeasonEnding (resolveSeasonEnding season s endOverride) now).getD 21) := by
    unfold resolvedWorkingEnd
    rw [hS, hLast]
  have hWD : workingDaysUntil season endOverride now =
      (daysUntilSeasonEnding (resolveSeasonEnding season s endOverride) now).getD 21 := by
    unfold workingDaysUntil
    rw [hS]
  constructor
  · intro hClose
    unfold calculateExtrapolation
    split
    · rename_i h
      rw [hNotPassed] at h
      exact absurd h (by simp)
    · rw [hS]
      simp only [hAnchor, hLast]
      rw [hRWE] at hClose
      rw [if_neg (by
        intro hcond
        exact absurd hcond.2 (not_lt.2 hClose))]
      unfold linearExtrapolation
      rw [if_neg (not_lt.2 hClose)]
      simp only [claimEndScore]
      rw [hRWE, hWD, div_day_chain]
  · intro hFew hFar
    refine ⟨?_, denseCurve_getLast? _ _ _ _ _ _ _⟩
    unfold calculateExtrapolation
    split
    · rename_i h
      rw [hNotPassed] at h
      exact absurd h (by simp)
    · rw [hS]
      simp only [hAnchor, hLast]
      rw [hRWE] at hFar
      rw [if_neg (by
        intro hcond
        exact absurd hcond.1 (not_le.2 hFew))]
      unfold linearExtrapolation
      rw [if_pos hFar]
      simp only [claimEndScore]
      rw [hRWE, hWD, div_day_chain]

/-- Claim C4 witness, exercising both fallback forms.  Segment: season
`[0, day 35.5]`, observations at day 28 (score 10) and day 35 (score 20),
evaluated at day 35 — half a day remains, so the result is the segment to
`(day 35.5, 20.7)`.  Dense: season `[0, day 37]`, same observations, same
`now` — no retained deltas and two days remain, so the result is a dense
curve whose final point is `(day 37, 22.9)`, the claim's projected end score
`toOneDigit(20 + (20 - 10) * (2 / 7))`. -/
theorem linearFallback_end_score_witness :
    (calculateExtrapolation ⟨some 0, some 3067200000, CrossFactionSupport.complete⟩
        [⟨2419200000, 10, Option.none⟩, ⟨3024000000, 20, Option.none⟩]
        Option.none 3024000000 =
      some (Extrapolation.segment ⟨3024000000, 20, Option.none⟩
        ((3067200000 : ℚ), 207 / 10))) ∧
    (∃ pts, calculateExtrapolation ⟨some 0, some 3196800000, CrossFactionSupport.complete⟩
        [⟨2419200000, 10, Option.none⟩, ⟨3024000000, 20, Option.none⟩]
        Option.none 3024000000 =
      some (Extrapolation.dense pts) ∧
      pts.getLast? = some ((3196800000 : ℚ), 229 / 10)) := by
  constructor
  · have h := (linearFallback_end_score
      ⟨some 0, some 3067200000, CrossFactionSupport.complete⟩
      [⟨2419200000, 10, Option.none⟩, ⟨3024000000, 20, Option.none⟩]
      Option.none 3024000000 0 ⟨3024000000, 20, Option.none⟩ ⟨2419200000, 10, Option.none⟩
      rfl rfl rfl
      (by norm_num [determineExtrapolationStart, oneWeekInMs, List.find?])).1
      (by norm_num [resolvedWorkingEnd, resolveSeasonEnding, daysUntilSeasonEnding,
        extrapolationEnd, oneWeekQ])
    rw [h]
    norm_num [claimEndScore, resolvedWorkingEnd, workingDaysUntil, resolveSeasonEnding,
      daysUntilSeasonEnding, extrapolationEnd, toOneDigit, Int.floor_eq_iff]
  · have h := (linearFallback_end_score
      ⟨some 0, some 3196800000, CrossFactionSupport.complete⟩
      [⟨2419200000, 10, Option.none⟩, ⟨3024000000, 20, Option.none⟩]
      Option.none 3024000000 0 ⟨3024000000, 20, Option.none⟩ ⟨2419200000, 10, Option.none⟩
      rfl rfl rfl
      (by norm_num [determineExtrapolationStart, oneWeekInMs, List.find?])).2
      (by norm_num [passedWeeksDiffs, calculateFactionDiffForWeek, resolveSeasonEnding,
        jsLen, oneWeekInMs, oneWeekQ, List.range_succ, List.enum, List.enumFrom,
        List.filter, Int.floor_eq_iff])
      (by norm_num [resolvedWorkingEnd, resolveSeasonEnding, daysUntilSeasonEnding,
        extrapolationEnd, oneWeekQ])
    refine ⟨_, h.1, ?_⟩
    rw [h.2]
    norm_num [claimEndScore, resolvedWorkingEnd, workingDaysUntil, resolveSeasonEnding,
      daysUntilSeasonEnding, extrapolationEnd, toOneDigit, Int.floor_eq_iff]

/-! Claim C10: under cross-faction support mode `none`, the growth estimator
never has samples, so only the simple-linear-ratio fallback can run. -/

/-- Claim C10: when `crossFactionSupport = none`, every week's combined
(cross-faction) delta is 0, the retained weekly-delta list is always empty,
and `calculateExtrapolation` never selects the weighted-recent-growth
strategy: any forecast it produces is the simple-linear-ratio fallback
(dense curve or segment) built from the last observation and the anchor. -/
theorem modeNone_linear_fallback (season : SeasonWindow) (data : List Dataset)
    (endOverride : Option JSNum) (now : ℤ)
    (hMode : season.crossFactionSupport = CrossFactionSupport.none) :
    (∀ (isFirstWeek : Bool) (fromTs toTs : ℤ),
      (calculateFactionDiffForWeek data season.crossFactionSupport
        isFirstWeek fromTs toTs).xFactionDiff = 0) ∧
    (∀ (seasonStart : ℤ) (seasonEnding : Option ℤ),
      passedWeeksDiffs season seasonStart seasonEnding data = []) ∧
    (calculateExtrapolation season data endOverride now = Option.none ∨
      ∃ lastDataset anchor,
        data.getLast? = some lastDataset ∧
        determineExtrapolationStart data season = some anchor ∧
        calculateExtrapolation season data endOverride now =
          some (linearExtrapolation lastDataset anchor
            (resolvedWorkingEnd season data endOverride now)
            (workingDaysUntil season endOverride now))) := by
  have h1 : ∀ (isFirstWeek : Bool) (fromTs toTs : ℤ),
      (calculateFactionDiffForWeek data season.crossFactionSupport
        isFirstWeek fromTs toTs).xFactionDiff = 0 := by
    rw [hMode]
    intro isFirstWeek fromTs toTs
    rfl
  have h2 : ∀ (seasonStart : ℤ) (seasonEnding : Option ℤ),
      passedWeeksDiffs season seasonStart seasonEnding data = [] := by
    intro seasonStart seasonEnding
    have hfilter : ∀ n : ℕ,
        (((List.range n).map fun index =>
            (calculateFactionDiffForWeek data season.crossFactionSupport
              (decide (index = 0))
              (seasonStart + (index : ℤ) * oneWeekInMs)
              (seasonStart + (index : ℤ) * oneWeekInMs + oneWeekInMs)).xFactionDiff)
          |>.filter fun q => decide (q ≠ 0)) = [] := by
      intro n
      apply List.filter_eq_nil_iff.2
      intro a ha
      simp only [List.mem_map] at ha
      obtain ⟨i, -, rfl⟩ := ha
      simp [h1]
    simp only [passedWeeksDiffs]
    rw [hfilter]
    rfl
  refine ⟨h1, h2, ?_⟩
  unfold calculateExtrapolation
  split
  · exact Or.inl (by trivial)
  cases hS : season.startDate with
  | none => exact Or.inl (by trivial)
  | some seasonStart =>
      cases hA : determineExtrapolationStart data season with
      | none => simp only [hA]; exact Or.inl (by trivial)
      | some anchor =>
          cases hL : data.getLast? with
          | none => simp only [hA]; exact Or.inl (by trivial)
          | some lastDataset =>
              simp only [hA, hL]
              rw [h2, if_neg (by
                intro hcond
                have := hcond.1
                simp at this)]
              refine Or.inr ⟨lastDataset, anchor, rfl, rfl, ?_⟩
              have hRWE : resolvedWorkingEnd season data endOverride now =
                  extrapolationEnd (resolveSeasonEnding season seasonStart endOverride)
                    lastDataset.ts
                    ((daysUntilSeasonEnding
                        (resolveSeasonEnding season seasonStart endOverride) now).getD 21) := by
                unfold resolvedWorkingEnd
                rw [hS, hL]
              have hWD : workingDaysUntil season endOverride now =
                  (daysUntilSeasonEnding
                    (resolveSeasonEnding season seasonStart endOverride) now).getD 21 := by
                unfold workingDaysUntil
                rw [hS]
              rw [hRWE, hWD]

/-- Claim C10 witness: a mode-`none` season with faction-tagged observations
retains no weekly deltas. -/
theorem modeNone_linear_fallback_witness :
    passedWeeksDiffs ⟨some 0, Option.none, CrossFactionSupport.none⟩ 0 Option.none
      [⟨100, 5, some Faction.horde⟩, ⟨200, 7, some Faction.alliance⟩] = [] :=
  (modeNone_linear_fallback ⟨some 0, Option.none, CrossFactionSupport.none⟩
    [⟨100, 5, some Faction.horde⟩, ⟨200, 7, some Faction.alliance⟩]
    Option.none 0 rfl).2.1 0 Option.none

/-! Claim C7: the zoom window. -/

/-- On a sorted list, the last element of a filter is a satisfying element of
maximal timestamp. -/
theorem sorted_filter_getLast?_some {p : Dataset → Bool} :
    ∀ l : List Dataset, l.Pairwise (fun a b => a.ts ≤ b.ts) →
      ∀ x, (l.filter p).getLast? = some x →
        x ∈ l ∧ p x = true ∧ ∀ y ∈ l, p y = true → y.ts ≤ x.ts := by
  intro l
  induction l with
  | nil => intro _ x hx; cases hx
  | cons a t ih =>
      intro hl x hx
      rw [List.pairwise_cons] at hl
      rw [List.filter_cons] at hx
      by_cases hpa : p a = true
      · rw [if_pos hpa] at hx
        cases hft : t.filter p with
        | nil =>
            rw [hft] at hx
            cases hx
            refine ⟨List.mem_cons_self _ _, hpa, ?_⟩
            intro y hy hpy
            rcases List.mem_cons.1 hy with rfl | hy
            · exact le_refl _
            · exact absurd (List.mem_filter.2 ⟨hy, hpy⟩) (by rw [hft]; simp)
        | cons b t' =>
            rw [hft, List.getLast?_cons_cons, ← hft] at hx
            obtain ⟨hmem, hpx, hmin⟩ := ih hl.2 x hx
            refine ⟨List.mem_cons_of_mem _ hmem, hpx, ?_⟩
            intro y hy hpy
            rcases List.mem_cons.1 hy with rfl | hy
            · exact hl.1 x hmem
            · exact hmin y hy hpy
      · rw [if_neg hpa] at hx
        obtain ⟨hmem, hpx, hmin⟩ := ih hl.2 x hx
        refine ⟨List.mem_cons_of_mem _ hmem, hpx, ?_⟩
        intro y hy hpy
        rcases List.mem_cons.1 hy with rfl | hy
        · exact absurd hpy hpa
        · exact hmin y hy hpy

/-- The backward scan is the timestamp of the latest qualifying observation,
or 0 if none qualifies. -/
theorem backThen_latest (data : List Dataset)
    (hSorted : data.Pairwise (fun a b => a.ts ≤ b.ts)) (ze off : ℚ) :
    (backThen data ze off = 0 ∧ ∀ x ∈ data, ¬ ((x.ts : ℚ) < ze - off)) ∨
    (∃ x ∈ data, backThen data ze off = (x.ts : ℚ) ∧ (x.ts : ℚ) < ze - off ∧
      ∀ y ∈ data, (y.ts : ℚ) < ze - off → y.ts ≤ x.ts) := by
  unfold backThen
  rw [find?_reverse_eq_getLast?_filter]
  cases hg : (data.filter fun dataset => decide ((dataset.ts : ℚ) < ze - off)).getLast? with
  | none =>
      left
      refine ⟨rfl, ?_⟩
      intro x hx hlt
      have hnil := List.getLast?_eq_none_iff.1 hg
      have := List.filter_eq_nil_iff.1 hnil x hx
      simp only [decide_eq_true_eq] at this
      exact this hlt
  | some x =>
      right
      obtain ⟨hmem, hpx, hmin⟩ := sorted_filter_getLast?_some data hSorted x hg
      simp only [decide_eq_true_eq] at hpx
      exact ⟨x, hmem, rfl, hpx, fun y hy hlt =>
        hmin y hy (by simpa using hlt)⟩

/-- The zoom end as claim C7 states it: the forecast's last timestamp when a
forecast exists, else the series' last timestamp. -/
def claimZoomEnd (data : List Dataset) (extrapolation : Option Extrapolation) : ℚ :=
  match extrapolation with
  | some (Extrapolation.dense points) => (points.getLast?.map Prod.fst).getD 0
  | some (Extrapolation.segment _ p) => p.1
  | Option.none => ((data.getLast?).map fun dataset => (dataset.ts : ℚ)).getD 0

/-- The look-back offset table as claim C7 states it: 8/7 weeks below one day
left; 3 weeks (forecast) or 2 weeks (none) below seven days; 6 or 4 weeks
otherwise, including when the end date is unknown or already passed. -/
def claimOffset (season : SeasonWindow) (extrapolation : Option Extrapolation)
    (now : ℤ) : ℚ :=
  match daysUntilSeasonEnding season.endDate now with
  | some days =>
      if days < 1 then 8 / 7 * oneWeekQ
      else if days < 7 then (if extrapolation.isSome then 3 else 2) * oneWeekQ
      else (if extrapolation.isSome then 6 else 4) * oneWeekQ
  | Option.none => (if extrapolation.isSome then 6 else 4) * oneWeekQ

/-- Claim C7: for every non-empty sorted series and well-formed forecast,
`computeZoomWindow` returns `(zoomStart, zoomEnd)` with `zoomEnd` the
forecast's last timestamp (else the series' last timestamp), the offset drawn
from the claim's table, and `zoomStart` the latest observation timestamp
strictly below `zoomEnd - offset`, or 0 when no observation qualifies. -/
theorem computeZoomWindow_claim (season : SeasonWindow) (data : List Dataset)
    (extrapolation : Option Extrapolation) (now : ℤ)
    (hNE : data ≠ [])
    (hSorted : data.Pairwise (fun a b => a.ts ≤ b.ts))
    (hWF : ∀ l, extrapolation = some (Extrapolation.dense l) → l ≠ []) :
    ∃ zoomStart,
      computeZoomWindow season data extrapolation now =
        some (zoomStart, claimZoomEnd data extrapolation) ∧
      ((zoomStart = 0 ∧ ∀ x ∈ data, ¬ ((x.ts : ℚ) <
          claimZoomEnd data extrapolation - claimOffset season extrapolation now)) ∨
       (∃ x ∈ data, zoomStart = (x.ts : ℚ) ∧
          (x.ts : ℚ) < claimZoomEnd data extrapolation -
            claimOffset season extrapolation now ∧
          ∀ y ∈ data, (y.ts : ℚ) < claimZoomEnd data extrapolation -
            claimOffset season extrapolation now → y.ts ≤ x.ts)) := by
  have hZE : zoomEndOf data extrapolation = some (claimZoomEnd data extrapolation) := by
    cases extrapolation with
    | none =>
        cases hL : data.getLast? with
        | none => exact absurd (List.getLast?_eq_none_iff.1 hL) hNE
        | some ld => simp [zoomEndOf, claimZoomEnd, hL]
    | some e =>
        cases e with
        | dense points =>
            cases hpl : points.getLast? with
            | none => exact absurd (List.getLast?_eq_none_iff.1 hpl) (hWF points rfl)
            | some p => simp [zoomEndOf, claimZoomEnd, hpl]
        | segment fromD toP => simp [zoomEndOf, claimZoomEnd]
  have hmain : computeZoomWindow season data extrapolation now =
      some (backThen data (claimZoomEnd data extrapolation)
          (claimOffset season extrapolation now),
        claimZoomEnd data extrapolation) := by
    unfold computeZoomWindow
    rw [if_neg (by simpa [List.isEmpty_iff] using hNE)]
    unfold calculateZoom
    rw [hZE]
    cases hdU : daysUntilSeasonEnding season.endDate now with
    | none => simp only [claimOffset, hdU]
    | some days =>
        simp only [claimOffset, hdU]
        by_cases h1 : days < 1
        · rw [if_pos h1, if_pos h1]
          norm_num
        · rw [if_neg h1, if_neg h1]
          by_cases h7 : days < 7
          · rw [if_pos h7, if_pos h7]
          · rw [if_neg h7, if_neg h7]
  exact ⟨_, hmain, backThen_latest data hSorted _ _⟩

/-- Claim C7 witness: a season with no end date, no forecast, and two
observations five weeks apart: the offset is 4 weeks and the zoom starts at
the earlier observation's timestamp. -/
theorem computeZoomWindow_claim_witness :
    ∃ zoomStart,
      computeZoomWindow ⟨some 0, Option.none, CrossFactionSupport.complete⟩
        [⟨100, 1, Option.none⟩, ⟨3024000000, 2, Option.none⟩] Option.none 0 =
        some (zoomStart, claimZoomEnd
          [⟨100, 1, Option.none⟩, ⟨3024000000, 2, Option.none⟩] Option.none) ∧
      ((zoomStart = 0 ∧ ∀ x ∈ [(⟨100, 1, Option.none⟩ : Dataset),
          ⟨3024000000, 2, Option.none⟩], ¬ ((x.ts : ℚ) <
          claimZoomEnd [⟨100, 1, Option.none⟩, ⟨3024000000, 2, Option.none⟩] Option.none -
          claimOffset ⟨some 0, Option.none, CrossFactionSupport.complete⟩ Option.none 0)) ∨
       (∃ x ∈ [(⟨100, 1, Option.none⟩ : Dataset), ⟨3024000000, 2, Option.none⟩],
          zoomStart = (x.ts : ℚ) ∧
          (x.ts : ℚ) < claimZoomEnd
            [⟨100, 1, Option.none⟩, ⟨3024000000, 2, Option.none⟩] Option.none -
            claimOffset ⟨some 0, Option.none, CrossFactionSupport.complete⟩ Option.none 0 ∧
          ∀ y ∈ [(⟨100, 1, Option.none⟩ : Dataset), ⟨3024000000, 2, Option.none⟩],
            (y.ts : ℚ) < claimZoomEnd
              [⟨100, 1, Option.none⟩, ⟨3024000000, 2, Option.none⟩] Option.none -
              claimOffset ⟨some 0, Option.none, CrossFactionSupport.complete⟩ Option.none 0 →
            y.ts ≤ x.ts)) :=
  computeZoomWindow_claim ⟨some 0, Option.none, CrossFactionSupport.complete⟩
    [⟨100, 1, Option.none⟩, ⟨3024000000, 2, Option.none⟩] Option.none 0
    (by simp)
    (by simp [List.pairwise_cons])
    (fun l h => Option.noConfusion h)

/-! Claim C2: the spec's worked weighted-growth example. -/

/-- Claim C2 counterexample, at the stipulated values (retained deltas
`[5, 6, 4, 5, 6, 7]`, last observation at day 49 with score 100, end at day
70, 21 days remaining): the code's daily increment is `139/210` — the seed
delta `5` enters unweighted — not the claim's
`(5*0.5 + 6*0.6 + 4*0.7 + 5*0.8 + 6*0.9 + 7*1)/6/7 = 253/420`; and the curve
has 22 points (1 start + 20 intermediate + 1 final), not 21, with last score
`113.9`, not the claim's `112.7`.  (The stipulated scenario is also
unrealisable end-to-end: with observations ending at day 49 at most weeks
0-7 can have nonzero deltas, so at most 4 deltas survive the warm-up drop.) -/
theorem claimC2_counterexample :
    scoreIncreaseSteps [5, 6, 4, 5, 6, 7] = 139 / 210 ∧
    scoreIncreaseSteps [5, 6, 4, 5, 6, 7] ≠
      (5 * (5 / 10) + 6 * (6 / 10) + 4 * (7 / 10) + 5 * (8 / 10) + 6 * (9 / 10) + 7 * 1)
        / 6 / 7 ∧
    (weightedExtrapolation 4233600000 100 6048000000 21 [5, 6, 4, 5, 6, 7]).length = 22 ∧
    ¬ (weightedExtrapolation 4233600000 100 6048000000 21 [5, 6, 4, 5, 6, 7]).length = 21 ∧
    ((weightedExtrapolation 4233600000 100 6048000000 21 [5, 6, 4, 5, 6, 7]).getLast?).map
        Prod.snd = some (1139 / 10) ∧
    ¬ ((weightedExtrapolation 4233600000 100 6048000000 21 [5, 6, 4, 5, 6, 7]).getLast?).map
        Prod.snd = some (toOneDigit (100 +
          ((5 * (5 / 10) + 6 * (6 / 10) + 4 * (7 / 10) + 5 * (8 / 10) + 6 * (9 / 10) + 7 * 1)
            / 6 / 7) * 21)) := by
  have hsteps : scoreIncreaseSteps [5, 6, 4, 5, 6, 7] = 139 / 210 := by
    norm_num [scoreIncreaseSteps, weightedSum, jsWeightFactor, List.enumFrom]
  have hlast : ((weightedExtrapolation 4233600000 100 6048000000 21
      [5, 6, 4, 5, 6, 7]).getLast?) =
      some ((6048000000 : ℚ),
        toOneDigit (100 + scoreIncreaseSteps [5, 6, 4, 5, 6, 7] * 21)) := by
    simp only [weightedExtrapolation, denseCurve]
    rw [List.getLast?_concat]
  have hround : toOneDigit (100 + (139 : ℚ) / 210 * 21) = 1139 / 10 := by
    norm_num [toOneDigit, Int.floor_eq_iff]
  refine ⟨hsteps, ?_, ?_, ?_, ?_, ?_⟩
  · rw [hsteps]; norm_num
  · norm_num [weightedExtrapolation, denseCurve, jsLen, Int.floor_eq_iff,
      show Int.toNat 20 = 20 from by simp]
  · norm_num [weightedExtrapolation, denseCurve, jsLen, Int.floor_eq_iff,
      show Int.toNat 20 = 20 from by simp]
  · rw [hlast, hsteps, hround]
    rfl
  · rw [hlast, hsteps, hround]
    norm_num [toOneDigit, Int.floor_eq_iff]

/-- The season of the amended claim C2 example: start day 0, end day 70,
complete cross-faction support. -/
def exampleSeasonC2 : SeasonWindow :=
  ⟨some 0, some 6048000000, CrossFactionSupport.complete⟩

/-- The series of the amended claim C2 example: two observations in each of
the ten weeks, with weekly deltas `[2, 1, 1, 1, 5, 6, 4, 5, 6, 7]` (all
nonzero; the first four are dropped by the warm-up rule), last observation at
day 64 with score 100. -/
def exampleDataC2 : List Dataset :=
  [⟨86400000, 1, Option.none⟩, ⟨518400000, 2, Option.none⟩,
   ⟨691200000, 3, Option.none⟩, ⟨1123200000, 4, Option.none⟩,
   ⟨1296000000, 5, Option.none⟩, ⟨1728000000, 6, Option.none⟩,
   ⟨1900800000, 7, Option.none⟩, ⟨2332800000, 8, Option.none⟩,
   ⟨2505600000, 9, Option.none⟩, ⟨2937600000, 14, Option.none⟩,
   ⟨3110400000, 15, Option.none⟩, ⟨3542400000, 21, Option.none⟩,
   ⟨3715200000, 22, Option.none⟩, ⟨4147200000, 26, Option.none⟩,
   ⟨4320000000, 27, Option.none⟩, ⟨4752000000, 32, Option.none⟩,
   ⟨4924800000, 33, Option.none⟩, ⟨5356800000, 39, Option.none⟩,
   ⟨5486400000, 93, Option.none⟩, ⟨5529600000, 100, Option.none⟩]

set_option maxHeartbeats 4000000 in
/-- Claim C2 (amended): for a season with start day 0 and end day 70 whose
retained weekly combined deltas are `[5, 6, 4, 5, 6, 7]`, with the last
observation at day 64 (six days before the end, so that ten nonzero weekly
deltas can actually exist) with score 100 and `now` = day 64:
the weighted-recent-growth strategy is selected; the seed delta `5` enters
the accumulator-less `reduce` unweighted, the rest carry weights
`[0.6, 0.7, 0.8, 0.9, 1.0]`, so the daily increment is
`(5 + 6*0.6 + 4*0.7 + 5*0.8 + 6*0.9 + 7*1)/6/7 = 139/210`; the resulting
dense curve spans day 64 to day 70 with 7 points (daysUntilEnd + 1), strictly
increasing scores, and last score `toOneDigit(100 + (139/210)*6) = 104`. -/
theorem claimC2_amended :
    passedWeeksDiffs exampleSeasonC2 0 (some 6048000000) exampleDataC2 =
      [5, 6, 4, 5, 6, 7] ∧
    scoreIncreaseSteps [5, 6, 4, 5, 6, 7] = 139 / 210 ∧
    calculateExtrapolation exampleSeasonC2 exampleDataC2 Option.none 5529600000 =
      some (Extrapolation.dense
        [((5529600000 : ℚ), (100 : ℚ)), (5616000000, 1007 / 10), (5702400000, 1013 / 10),
         (5788800000, 102), (5875200000, 513 / 5), (5961600000, 1033 / 10),
         (6048000000, 104)]) ∧
    List.Chain' (fun p q : ℚ × ℚ => p.2 < q.2)
      [((5529600000 : ℚ), (100 : ℚ)), (5616000000, 1007 / 10), (5702400000, 1013 / 10),
       (5788800000, 102), (5875200000, 513 / 5), (5961600000, 1033 / 10),
       (6048000000, 104)] ∧
    toOneDigit (100 + 139 / 210 * 6) = 104 := by
  refine ⟨?_, ?_, ?_, ?_, ?_⟩
  · norm_num [passedWeeksDiffs, calculateFactionDiffForWeek, exampleSeasonC2,
      exampleDataC2, jsLen, oneWeekInMs, oneWeekQ, List.range_succ, List.enum,
      List.enumFrom, List.filter, Int.floor_eq_iff]
  · norm_num [scoreIncreaseSteps, weightedSum, jsWeightFactor, List.enumFrom]
  · norm_num [calculateExtrapolation, determineExtrapolationStart, endDatePassed,
      resolveSeasonEnding, daysUntilSeasonEnding, passedWeeksDiffs,
      calculateFactionDiffForWeek, extrapolationEnd, linearExtrapolation,
      weightedExtrapolation, denseCurve, scoreIncreaseSteps, weightedSum,
      jsWeightFactor, toOneDigit, jsLen, oneWeekInMs, oneWeekQ, exampleSeasonC2,
      exampleDataC2, List.range_succ, List.find?, List.enum, List.enumFrom,
      List.filter, Int.floor_eq_iff, show Int.toNat 5 = 5 from by simp]
  · norm_num [List.chain'_cons]
  · norm_num [toOneDigit, Int.floor_eq_iff]

/-! Claim C9: override end-date handling. -/

/-- A `NaN` override is falsy, exactly like an absent one, wherever
`calculateExtrapolation` consults the override. -/
theorem resolveSeasonEnding_nan (season : SeasonWindow) (seasonStart : ℤ) :
    resolveSeasonEnding season seasonStart (some JSNum.nan) =
      resolveSeasonEnding season seasonStart Option.none := by
  unfold resolveSeasonEnding
  cases season.endDate <;> rfl

set_option maxHeartbeats 16000000 in
/-- Claim C9 counterexample: an override date exactly equal to `now` (hence
not in the future) survives `determineExtrapolationEnd` (`date < Date.now()`
is strict), and it changes the forecast: for a season starting at hour 12 of
day 0 with no end date, observations at days 28.5 and 35.5 (scores 10 and
20), and `now` at day 35.5 plus two hours, the kept override resolves — after
the hour-of-day adjustment — to the last observation's timestamp, producing a
two-point segment, while the absent-override forecast is a 22-point dense
curve over a 21-day horizon. -/
theorem claimC9_counterexample :
    determineExtrapolationEnd (some (JSNum.val 3074400000)) 3074400000 =
      some (JSNum.val 3074400000) ∧
    calculateExtrapolation ⟨some 43200000, Option.none, CrossFactionSupport.complete⟩
        [⟨2462400000, 10, Option.none⟩, ⟨3067200000, 20, Option.none⟩]
        (some (JSNum.val 3074400000)) 3074400000 ≠
      calculateExtrapolation ⟨some 43200000, Option.none, CrossFactionSupport.complete⟩
        [⟨2462400000, 10, Option.none⟩, ⟨3067200000, 20, Option.none⟩]
        Option.none 3074400000 := by
  constructor
  · rfl
  · norm_num [calculateExtrapolation, determineExtrapolationStart, endDatePassed,
      resolveSeasonEnding, daysUntilSeasonEnding, passedWeeksDiffs,
      calculateFactionDiffForWeek, extrapolationEnd, linearExtrapolation,
      weightedExtrapolation, denseCurve, scoreIncreaseSteps, weightedSum, jsWeightFactor,
      toOneDigit, jsLen, oneWeekInMs, oneWeekQ, oneDayInMs, oneHourInMs,
      jsSetHoursFromStart, List.range_succ, List.find?, List.enum, List.enumFrom,
      List.filter, Int.floor_eq_iff, show Int.toNat 20 = 20 from by simp]
    exact fun h => Extrapolation.noConfusion h

/-- Claim C9 (amended): an absent parameter yields no override; an
unparseable date parses to `NaN`, which is returned as-is by
`determineExtrapolationEnd` but is falsy in `calculateExtrapolation`, so the
forecast equals the no-override forecast and no error occurs; and an override
date strictly earlier than `now` resolves to absent.  (A date exactly equal
to `now` is kept — see the counterexample.) -/
theorem determineExtrapolationEnd_amended (now : ℤ) (season : SeasonWindow)
    (data : List Dataset) :
    determineExtrapolationEnd Option.none now = Option.none ∧
    (determineExtrapolationEnd (some JSNum.nan) now = some JSNum.nan ∧
      calculateExtrapolation season data (some JSNum.nan) now =
        calculateExtrapolation season data Option.none now) ∧
    (∀ d : ℤ, d < now → determineExtrapolationEnd (some (JSNum.val d)) now = Option.none) := by
  refine ⟨rfl, ⟨rfl, ?_⟩, ?_⟩
  · simp only [calculateExtrapolation, resolveSeasonEnding_nan]
  · intro d hd
    simp [determineExtrapolationEnd, hd]

/-- Claim C9 witness: a past override date resolves to absent. -/
theorem determineExtrapolationEnd_amended_witness :
    determineExtrapolationEnd (some (JSNum.val 5)) 10 = Option.none :=
  (determineExtrapolationEnd_amended 10
    ⟨some 0, Option.none, CrossFactionSupport.complete⟩ []).2.2 5 (by norm_num)

end MplusTitle
